import Mathlib

/-!
# Verification of the SR-IOV network collector (`collector/sriov_net_linux.go`)

This file shallowly embeds the collector: the filesystem is a snapshot (`FS`)
mapping each system-call argument to its outcome, and each Go function of the
module becomes a Lean function over that snapshot.  The pure library routines
the module relies on (`strings.TrimSpace`, `strconv.ParseInt` with base 0,
`strconv.ParseFloat`, `path/filepath.Join`/`Clean`/`Base`, and Prometheus'
`BuildFQName`) are modelled faithfully from their Go semantics, since the
module's observable behaviour depends on them.
-/

set_option autoImplicit false
set_option maxRecDepth 65536

namespace SriovNet

/-! ## Constants of the module (from the `const` block of the source) -/

def sriovStatSubsystem : String := "sriovnet"

def sysBusPci : String := "/sys/bus/pci/devices"

def totalVfFile : String := "sriov_totalvfs"

def pfNameFile : String := "/net"

def netClassFile : String := "/class"

def driverFile : String := "/driver"

/-- `netClass = 0x020000`, the PCI class code for network controllers. -/
def netClass : Int := 0x020000

/-! ## Go string helpers

`lowerC` is Go's `strconv` byte lowering `c | ('x' - 'X')`; on the ASCII
characters that the parsers accept it agrees with the byte-level original. -/

def lowerC (c : Char) : Char := Char.ofNat (c.toNat ||| 0x20)

/-- `unicode.IsSpace`: the White_Space code points recognised by Go. -/
def goIsSpace (c : Char) : Bool :=
  c.toNat = 0x09 || c.toNat = 0x0A || c.toNat = 0x0B || c.toNat = 0x0C ||
  c.toNat = 0x0D || c.toNat = 0x20 || c.toNat = 0x85 || c.toNat = 0xA0 ||
  c.toNat = 0x1680 || (0x2000 ≤ c.toNat && c.toNat ≤ 0x200A) ||
  c.toNat = 0x2028 || c.toNat = 0x2029 || c.toNat = 0x202F ||
  c.toNat = 0x205F || c.toNat = 0x3000

/-- `strings.TrimSpace`: drop leading and trailing white-space runes. -/
def goTrimSpace (s : String) : String :=
  String.mk ((((s.toList.dropWhile goIsSpace).reverse).dropWhile goIsSpace).reverse)

/-- Digit value of a byte as in Go's `ParseUint` loop: `'0'..'9'` give 0–9 and
letters (after lowering) give 10–35; anything else is a syntax error. -/
def goDigitVal (c : Char) : Option Nat :=
  if '0' ≤ c && c ≤ '9' then some (c.toNat - '0'.toNat)
  else if 'a' ≤ lowerC c && lowerC c ≤ 'z' then some ((lowerC c).toNat - 'a'.toNat + 10)
  else none

/-! ## `strconv`'s `underscoreOK`

State machine over the characters: `saw` is `'^'` at the beginning, `'0'`
after a digit (or the base prefix), `'_'` after an underscore, `'!'` after
any other character. -/

def underscoreOKLoop (hex : Bool) : Char → List Char → Bool
  | saw, [] => saw ≠ '_'
  | saw, c :: rest =>
    if ('0' ≤ c && c ≤ '9') || (hex && 'a' ≤ lowerC c && lowerC c ≤ 'f') then
      underscoreOKLoop hex '0' rest
    else if c = '_' then
      if saw ≠ '0' then false else underscoreOKLoop hex '_' rest
    else if saw = '_' then false
    else underscoreOKLoop hex '!' rest

/-- `strconv.underscoreOK`: underscores must separate digits (the base prefix
counting as a digit). -/
def goUnderscoreOK (s : List Char) : Bool :=
  let s1 := match s with
    | '+' :: rest => rest
    | '-' :: rest => rest
    | other => other
  match s1 with
  | '0' :: c :: rest =>
    if lowerC c = 'b' || lowerC c = 'o' || lowerC c = 'x' then
      underscoreOKLoop (lowerC c = 'x') '0' rest
    else
      underscoreOKLoop false '^' s1
  | _ => underscoreOKLoop false '^' s1

/-! ## `strconv.ParseInt(s, 0, 64)`

The model returns `some v` exactly when Go returns `(v, nil)`: the digits are
accumulated exactly (as a `Nat`), so every execution in which Go reports a
syntax or range error is a `none` here, and the successful values agree. -/

/-- The digit loop of `ParseUint`: underscores are skipped (recorded), any
non-digit (or digit ≥ base) is a syntax error. Returns the exact value and
whether an underscore was seen. -/
def parseUintLoop (base : Nat) : List Char → Nat → Bool → Option (Nat × Bool)
  | [], n, u => some (n, u)
  | c :: rest, n, u =>
    if c = '_' then parseUintLoop base rest n true
    else
      match goDigitVal c with
      | none => none
      | some d => if d ≥ base then none else parseUintLoop base rest (n * base + d) u

/-- `strconv.ParseUint(s, 0, _)` up to range checking: base detection for a
leading `0b`/`0o`/`0x` (needing at least one further character) or legacy
octal `0`, the digit loop, and the underscore placement check. -/
def goParseUint0 (s : List Char) : Option Nat :=
  match s with
  | [] => none
  | _ =>
    let bs : Nat × List Char :=
      match s with
      | '0' :: c :: rest =>
        if s.length ≥ 3 && lowerC c = 'b' then (2, rest)
        else if s.length ≥ 3 && lowerC c = 'o' then (8, rest)
        else if s.length ≥ 3 && lowerC c = 'x' then (16, rest)
        else (8, c :: rest)
      | '0' :: [] => (8, [])
      | _ => (10, s)
    match parseUintLoop bs.1 bs.2 0 false with
    | none => none
    | some (n, u) => if u && !goUnderscoreOK s then none else some n

/-- `strconv.ParseInt(s, 0, 64)`: optional sign, `ParseUint`, and the int64
range cutoff (`2^63` for negatives, `2^63 - 1` for non-negatives). -/
def goParseInt0 (str : String) : Option Int :=
  match str.toList with
  | [] => none
  | s =>
    let ns : Bool × List Char :=
      match s with
      | '+' :: rest => (false, rest)
      | '-' :: rest => (true, rest)
      | other => (false, other)
    match goParseUint0 ns.2 with
    | none => none
    | some un =>
      if !ns.1 && un ≥ 2 ^ 63 then none
      else if ns.1 && un > 2 ^ 63 then none
      else if ns.1 then some (-(un : Int)) else some (un : Int)

/-! ## `strconv.ParseFloat(s, 64)`

The model returns `none` exactly when Go returns a non-nil error (syntax
error, or the overflow range error that accompanies a ±Inf result).  The
successfully parsed value is modelled by the *exact* number denoted by the
literal — a rational for the finite syntax, plus explicit infinity/NaN for
the special spellings.  The rounding of that exact value to the nearest
binary64 float is the one aspect not modelled: the module only passes parsed
values through to the metric sink, so no claim depends on representation. -/

inductive GoFloat where
  | finite (q : ℚ)
  | inf (neg : Bool)
  | nan
deriving DecidableEq

/-- `strconv.special`, combined with `ParseFloat`'s requirement that the whole
string be consumed: the case-insensitive spellings `inf`/`infinity` with an
optional sign, and unsigned `nan`. -/
def specialFloat (s : List Char) : Option GoFloat :=
  let low := s.map lowerC
  if low = "inf".toList || low = "infinity".toList ||
     low = "+inf".toList || low = "+infinity".toList then some (GoFloat.inf false)
  else if low = "-inf".toList || low = "-infinity".toList then some (GoFloat.inf true)
  else if low = "nan".toList then some GoFloat.nan
  else none

/-- The mantissa scan of `strconv.readFloat`: digits (hex digits when `hex`)
and underscores, with at most one dot; stops at the first other character
(or at a second dot), which `ParseFloat` then requires to begin the exponent
or be absent.  Digits are collected exactly, split at the dot. -/
structure MantScan where
  ip : List Nat
  fp : List Nat
  sawdot : Bool
  sawu : Bool
  rest : List Char

def mantLoop (hex : Bool) : List Char → Bool → List Nat → List Nat → Bool → MantScan
  | [], sawdot, ip, fp, u => ⟨ip.reverse, fp.reverse, sawdot, u, []⟩
  | c :: rest, sawdot, ip, fp, u =>
    if c = '_' then mantLoop hex rest sawdot ip fp true
    else if c = '.' then
      if sawdot then ⟨ip.reverse, fp.reverse, sawdot, u, c :: rest⟩
      else mantLoop hex rest true ip fp u
    else if '0' ≤ c && c ≤ '9' then
      if sawdot then mantLoop hex rest sawdot ip ((c.toNat - '0'.toNat) :: fp) u
      else mantLoop hex rest sawdot ((c.toNat - '0'.toNat) :: ip) fp u
    else if hex && 'a' ≤ lowerC c && lowerC c ≤ 'f' then
      if sawdot then mantLoop hex rest sawdot ip (((lowerC c).toNat - 'a'.toNat + 10) :: fp) u
      else mantLoop hex rest sawdot (((lowerC c).toNat - 'a'.toNat + 10) :: ip) fp u
    else ⟨ip.reverse, fp.reverse, sawdot, u, c :: rest⟩

/-- The exponent digit loop of `readFloat`: decimal digits and underscores,
with the accumulated exponent capped below 10000 as in Go. -/
def expDigitsLoop : List Char → Nat → Bool → Nat × Bool × List Char
  | [], e, u => (e, u, [])
  | c :: rest, e, u =>
    if '0' ≤ c && c ≤ '9' then
      expDigitsLoop rest (if e < 10000 then e * 10 + (c.toNat - '0'.toNat) else e) u
    else if c = '_' then expDigitsLoop rest e true
    else (e, u, c :: rest)

/-- The exponent part after the `e`/`p` character: optional sign, then a
mandatory first decimal digit followed by digits/underscores. -/
def scanExp (cs : List Char) : Option (Int × Bool × List Char) :=
  match cs with
  | [] => none
  | c :: rest =>
    let sr : Int × List Char :=
      if c = '+' then (1, rest) else if c = '-' then (-1, rest) else (1, c :: rest)
    match sr.2 with
    | [] => none
    | d :: _ =>
      if '0' ≤ d && d ≤ '9' then
        let r := expDigitsLoop sr.2 0 false
        some (sr.1 * (r.1 : Int), r.2.1, r.2.2)
      else none

def digitsVal (base : Nat) (ds : List Nat) : Nat :=
  ds.foldl (fun n d => n * base + d) 0

/-- The exact value denoted by a scanned literal: integer digits `ip` and
fractional digits `fp` in `base` (10 or 16), scaled by `pbase ^ e`
(`pbase` = 10 for decimal, 2 for hex).  Values of magnitude at least
`2^1024 - 2^970` round to ±Inf in binary64, which `ParseFloat` reports as a
range error, hence `none`; smaller values are returned exactly. -/
def floatValue (base : Nat) (ip fp : List Nat) (pbase : Nat) (e : Int) (neg : Bool) :
    Option GoFloat :=
  let num2 : Nat := digitsVal base (ip ++ fp) * pbase ^ e.toNat
  let den2 : Nat := base ^ fp.length * pbase ^ (-e).toNat
  if (2 ^ 1024 - 2 ^ 970) * den2 ≤ num2 then none
  else some (GoFloat.finite (Rat.divInt (if neg then -(num2 : Int) else (num2 : Int)) (den2 : Int)))

/-- `strconv.ParseFloat(s, 64)` as described above: the special spellings,
otherwise sign, decimal or hexadecimal mantissa (the hex prefix needs at
least one character after it, and hex floats require a `p` exponent),
optional (`e`) exponent, full-string consumption, underscore placement, and
the overflow range check. -/
def goParseFloat (str : String) : Option GoFloat :=
  let s := str.toList
  match specialFloat s with
  | some g => some g
  | none =>
    let ns : Bool × List Char :=
      match s with
      | '+' :: rest => (false, rest)
      | '-' :: rest => (true, rest)
      | other => (false, other)
    let isHex : Bool :=
      match ns.2 with
      | '0' :: c :: _ :: _ => lowerC c = 'x'
      | _ => false
    if isHex then
      match ns.2 with
      | _ :: _ :: ms =>
        let m := mantLoop true ms false [] [] false
        if m.ip = [] && m.fp = [] then none
        else
          match m.rest with
          | c :: rest2 =>
            if lowerC c = 'p' then
              match scanExp rest2 with
              | some (e, u2, []) =>
                if (m.sawu || u2) && !goUnderscoreOK s then none
                else floatValue 16 m.ip m.fp 2 e ns.1
              | _ => none
            else none
          | [] => none
      | _ => none
    else
      let m := mantLoop false ns.2 false [] [] false
      if m.ip = [] && m.fp = [] then none
      else
        match m.rest with
        | [] =>
          if m.sawu && !goUnderscoreOK s then none
          else floatValue 10 m.ip m.fp 10 0 ns.1
        | c :: rest2 =>
          if lowerC c = 'e' then
            match scanExp rest2 with
            | some (e, u2, []) =>
              if (m.sawu || u2) && !goUnderscoreOK s then none
              else floatValue 10 m.ip m.fp 10 e ns.1
            | _ => none
          else none

/-! ## `path/filepath` (Unix rules)

`Clean` is modelled by its standard specification: split on `/`, drop empty
and `.` components, let `..` pop a preceding component (absorbed at the root
when the path is rooted, kept when relative), and re-join. -/

/-- Split a character list on `/` (the semantics of `strings.Split` on the
separator, used by the path functions below). -/
def splitSlash : List Char → List (List Char)
  | [] => [[]]
  | c :: rest =>
    let r := splitSlash rest
    if c = '/' then [] :: r
    else
      match r with
      | h :: t => (c :: h) :: t
      | [] => [[c]]

/-- Re-join components with `/`. -/
def joinSlash : List (List Char) → List Char
  | [] => []
  | [x] => x
  | x :: rest => x ++ '/' :: joinSlash rest

/-- One pass of `Clean`'s component processing; the stack is kept reversed
(head = most recent component). -/
def cleanLoop (rooted : Bool) : List (List Char) → List (List Char) → List (List Char)
  | [], stack => stack
  | c :: rest, stack =>
    if c = [] || c = ['.'] then cleanLoop rooted rest stack
    else if c = ['.', '.'] then
      match stack with
      | top :: more =>
        if top = ['.', '.'] then cleanLoop rooted rest (c :: top :: more)
        else cleanLoop rooted rest more
      | [] => if rooted then cleanLoop rooted rest [] else cleanLoop rooted rest [['.', '.']]
    else cleanLoop rooted rest (c :: stack)

/-- `filepath.Clean`. -/
def goClean (path : String) : String :=
  if path = "" then "." else
  let cs := path.toList
  let rooted := cs.head? = some '/'
  let comps := cleanLoop rooted (splitSlash cs) []
  let body := joinSlash comps.reverse
  if rooted then (if body = [] then "/" else String.mk ('/' :: body))
  else (if body = [] then "." else String.mk body)

/-- `filepath.Join`: join from the first non-empty element with `/`, then
`Clean`; all-empty input gives `""`. -/
def goJoin (elems : List String) : String :=
  match elems.dropWhile (· = "") with
  | [] => ""
  | es => goClean (String.mk (joinSlash (es.map String.toList)))

/-- `filepath.Base`: last element of the path after dropping trailing
slashes; `"."` for the empty path, `"/"` for all-slash paths. -/
def goBase (path : String) : String :=
  if path = "" then "." else
  let l := path.toList.reverse.dropWhile (· = '/')
  let name := l.takeWhile (· ≠ '/')
  if name = [] then "/" else String.mk name.reverse

/-! ## The filesystem snapshot

Each field gives the outcome of the corresponding system/library call on one
fixed snapshot of the filesystem, with `none` modelling a call that returns a
non-nil error.  `readDir` lists entry base names in the sorted order
`ioutil.ReadDir` guarantees; `lstat` returns whether the entry's mode has the
symlink bit (`os.ModeSymlink`) set; `glob` is `filepath.Glob` applied to the
given pattern, returning the full matched paths. -/

structure FS where
  readDir : String → Option (List String)
  readFile : String → Option String
  statOK : String → Bool
  lstat : String → Option Bool
  readlink : String → Option String
  glob : String → Option (List String)
  evalSymlinks : String → Option String

/-- Go map assignment `m[k] = v` on an insertion-ordered association list: an
existing key is overwritten in place, a new key is appended.  (Go's map
iteration order is unspecified; the model fixes insertion order, so facts
about emitted collections are canonical-order representatives of Go's
order-nondeterministic iteration.) -/
def mapInsert {α : Type} (l : List (String × α)) (k : String) (v : α) : List (String × α) :=
  if l.any (fun p => p.1 == k) then l.map (fun p => if p.1 == k then (k, v) else p)
  else l ++ [(k, v)]

/-! ## The collector's functions (from `collector/sriov_net_linux.go`) -/

/-- `getPCIDevs`: list `/sys/bus/pci/devices`; a listing error yields the
empty slice (the code uses the entries' `Name()`s only). -/
def getPCIDevs (fs : FS) : List String :=
  match fs.readDir sysBusPci with
  | none => []
  | some links => links

/-- `isNetDevice`: read the class file, trim, `ParseInt(·, 0, 64)`, compare
against `netClass`; any read or parse failure is `false`. -/
def isNetDevice (fs : FS) (fp : String) : Bool :=
  match fs.readFile fp with
  | none => false
  | some file =>
    match goParseInt0 (goTrimSpace file) with
    | none => false
    | some deviceClass => deviceClass == netClass

/-- `isSriovNetPF`: a net-class device whose `sriov_totalvfs` file stats. -/
def isSriovNetPF (fs : FS) (pciAddr : String) : Bool :=
  if !isNetDevice fs (goJoin [sysBusPci, pciAddr, netClassFile]) then false
  else if !fs.statOK (goJoin [sysBusPci, pciAddr, totalVfFile]) then false
  else true

/-- `getSriovPFs`: error when the PCI listing has no entries or when no
entry qualifies; otherwise the qualifying addresses in listing order. -/
def getSriovPFs (fs : FS) : Except String (List String) :=
  let devs := getPCIDevs fs
  if devs.length = 0 then Except.error "pci devices could not be found"
  else
    let sriovPFs := devs.filter (isSriovNetPF fs)
    if sriovPFs.length = 0 then Except.error "no sriov net devices found on host"
    else Except.ok sriovPFs

/-- The `sriovStatReader` interface: `i40eReader` is its only
implementation. -/
inductive sriovStatReader where
  | i40eReader

/-- `statReaderForPF`: `Readlink` the driver symlink with the error ignored
(an error leaves `driverInfo` as `""`, whose `Base` is `"."`), and select a
reader by the base name of the target. -/
def statReaderForPF (fs : FS) (pf : String) : Option sriovStatReader :=
  let driverInfo := (fs.readlink (goJoin [sysBusPci, pf, driverFile])).getD ""
  if goBase driverInfo = "i40e" then some sriovStatReader.i40eReader else none

/-- The loop body of `vfList` over the globbed `virtfn*` paths: an entry is
recorded only when `Lstat` succeeds with the symlink mode bit set and
`EvalSymlinks` succeeds; the key is the entry's base name with the 6-byte
`virtfn` stripped, the value the base name of the resolved target. -/
def vfAccum (fs : FS) (dirs : List String) (acc : List (String × String)) :
    List (String × String) :=
  dirs.foldl (fun a dir =>
    match fs.lstat dir with
    | some true =>
      match fs.evalSymlinks dir with
      | some linkName => mapInsert a ((goBase dir).drop 6) (goBase linkName)
      | none => a
    | _ => a) acc

/-- `vfList`: error when the PF directory cannot be `Lstat`ed or the glob
errors; resolution failures inside the loop are silently skipped. -/
def vfList (fs : FS) (pfAddress : String) : Except String (List (String × String)) :=
  let pfDir := goJoin [sysBusPci, pfAddress]
  match fs.lstat pfDir with
  | none =>
    Except.error ("could not get PF directory information for device: " ++ pfAddress)
  | some _ =>
    match fs.glob (goJoin [pfDir, "virtfn*"]) with
    | none => Except.error "error reading VF directories"
    | some vfDirs => Except.ok (vfAccum fs vfDirs [])

/-- `getPFName`: a listing error returns `""`, but a successful listing is
indexed at position 0 unconditionally — on an *empty* listing the Go code
panics with an index-out-of-range runtime error, modelled as `none`. -/
def getPFName (fs : FS) (device : String) : Option String :=
  match fs.readDir (goJoin [sysBusPci, device, pfNameFile]) with
  | none => some ""
  | some [] => none
  | some (f :: _) => some f

/-- The sysfs directory `i40eReader.ReadStats` reads for a PF name and VF
id (note the trailing slash from the `Sprintf` format). -/
def statRoot (pfName vfID : String) : String :=
  "/sys/class/net/" ++ pfName ++ "/device/sriov/" ++ vfID ++ "/stats/"

/-- The loop body of `i40eReader.ReadStats` for one file `f` under `root`:
read it, trim, parse as float; either failure skips the file, success stores
`stats[f] = value`. -/
def statStep (fs : FS) (root : String) (stats : List (String × GoFloat)) (f : String) :
    List (String × GoFloat) :=
  match fs.readFile (goJoin [root, f]) with
  | none => stats
  | some statRaw =>
    match goParseFloat (goTrimSpace statRaw) with
    | none => stats
    | some value => mapInsert stats f value

/-- `i40eReader.ReadStats`: an unlistable stats directory is an empty
sample; each listed file is read and its trimmed content parsed as a float,
with unreadable or unparsable files skipped individually. -/
def i40eReadStats (fs : FS) (pfName vfID : String) : List (String × GoFloat) :=
  match fs.readDir (statRoot pfName vfID) with
  | none => []
  | some files => files.foldl (statStep fs (statRoot pfName vfID)) []

/-- The outcome of `statStep` for one file, as a partial map: `some` exactly
when the file is readable and its trimmed content parses. -/
def statParse (fs : FS) (root : String) (f : String) : Option (String × GoFloat) :=
  match fs.readFile (goJoin [root, f]) with
  | none => none
  | some raw => (goParseFloat (goTrimSpace raw)).map (fun v => (f, v))

/-- Dynamic dispatch of `sriovStatReader.ReadStats`. -/
def ReadStats (fs : FS) : sriovStatReader → String → String → List (String × GoFloat)
  | sriovStatReader.i40eReader, pfName, vfID => i40eReadStats fs pfName vfID

/-! ## Metric emission -/

/-- `prometheus.ValueType`: only `CounterValue` is used. -/
inductive ValueType where
  | counterValue
deriving DecidableEq

/-- `prometheus.BuildFQName`. -/
def buildFQName (ns sub name : String) : String :=
  if name = "" then "" else
  if ns ≠ "" && sub ≠ "" then ns ++ "_" ++ sub ++ "_" ++ name
  else if sub ≠ "" then sub ++ "_" ++ name
  else if ns ≠ "" then ns ++ "_" ++ name
  else name

/-- Modelled from the spec: the repository's collector package (its shared
`collector.go`, not under `src/`) defines the fixed metric `namespace`
prepended by `BuildFQName`; node_exporter's is `"node"`.  Only its fixedness
matters for the claims. -/
def metricNamespace : String := "node"

/-- One observation pushed to the metric channel: the descriptor built by
`NewDesc` (fully-qualified name, help text, variable label names) together
with the value type, value and label values of `MustNewConstMetric`. -/
structure Metric where
  fqName : String
  help : String
  labelNames : List String
  valueType : ValueType
  value : GoFloat
  labelValues : List String
deriving DecidableEq

/-- The metric the inner loop of `Update` emits for one statistic of one VF. -/
def metricFor (pfName id address name : String) (v : GoFloat) : Metric :=
  { fqName := buildFQName metricNamespace sriovStatSubsystem name
    help := "Statistic " ++ name ++ "."
    labelNames := ["pfName", "vf", "vfAddress"]
    valueType := ValueType.counterValue
    value := v
    labelValues := [pfName, id, address] }

/-- The metrics `Update` emits for one PF: the two nested `range` loops over
the VF map and the stat sample (`reader.ReadStats(pfName, id)`). -/
def pfMetrics (fs : FS) (reader : sriovStatReader) (pfName : String)
    (vfs : List (String × String)) : List Metric :=
  vfs.flatMap (fun p => (ReadStats fs reader pfName p.1).map (fun st => metricFor pfName p.1 p.2 st.1 st.2))

/-- Outcome of one `Update` pass: the emitted metrics on success, the
discovery error, or a runtime panic (from `getPFName`'s indexing, see
above), which aborts the process rather than returning. -/
inductive UpdateResult where
  | ok (metrics : List Metric)
  | error (msg : String)
  | crash
deriving DecidableEq

/-- The `for _, pf := range pfList` loop of `Update`, carrying the metrics
emitted so far: a `nil` reader or a `vfList` error skips the PF. -/
def updateLoop (fs : FS) : List String → List Metric → UpdateResult
  | [], acc => UpdateResult.ok acc
  | pf :: rest, acc =>
    match statReaderForPF fs pf with
    | none => updateLoop fs rest acc
    | some reader =>
      match vfList fs pf with
      | Except.error _ => updateLoop fs rest acc
      | Except.ok vfs =>
        match getPFName fs pf with
        | none => UpdateResult.crash
        | some pfName => updateLoop fs rest (acc ++ pfMetrics fs reader pfName vfs)

/-- `Update`: PF discovery, then the per-PF loop. -/
def Update (fs : FS) : UpdateResult :=
  match getSriovPFs fs with
  | Except.error e => UpdateResult.error e
  | Except.ok pfList => updateLoop fs pfList []

/-- `sriovNetCollector`: its only field is the logger handle (of the host's
logger type, abstract here); the struct is never written after
construction. -/
structure sriovNetCollector (L : Type) where
  logger : L

/-- `NewSriovNetCollector`. -/
def NewSriovNetCollector {L : Type} (logger : L) : sriovNetCollector L :=
  { logger := logger }

/-- `(c *sriovNetCollector).Update` with the receiver passed and returned
explicitly: the method reads no field and writes nothing, so the state comes
back unchanged and the result depends only on the snapshot. -/
def updateC {L : Type} (c : sriovNetCollector L) (fs : FS) : UpdateResult × sriovNetCollector L :=
  (Update fs, c)

/-! ## Concrete snapshots used as witnesses -/

/-- The all-failing snapshot: every call errors (or, for `statOK`, fails). -/
def emptyFS : FS where
  readDir := fun _ => none
  readFile := fun _ => none
  statOK := fun _ => false
  lstat := fun _ => none
  readlink := fun _ => none
  glob := fun _ => none
  evalSymlinks := fun _ => none

/-- A snapshot with one healthy i40e PF `0000:03:00.0` named `eno1`, one VF
at index 0 with address `0000:03:02.0`, and one statistic `tx_bytes = 42`. -/
def fsC8 : FS where
  readDir := fun p =>
    if p = sysBusPci then some ["0000:03:00.0"]
    else if p = "/sys/bus/pci/devices/0000:03:00.0/net" then some ["eno1"]
    else if p = "/sys/class/net/eno1/device/sriov/0/stats/" then some ["tx_bytes"]
    else none
  readFile := fun p =>
    if p = "/sys/bus/pci/devices/0000:03:00.0/class" then some "0x020000\n"
    else if p = "/sys/class/net/eno1/device/sriov/0/stats/tx_bytes" then some "42\n"
    else none
  statOK := fun p => p == "/sys/bus/pci/devices/0000:03:00.0/sriov_totalvfs"
  lstat := fun p =>
    if p = "/sys/bus/pci/devices/0000:03:00.0" then some false
    else if p = "/sys/bus/pci/devices/0000:03:00.0/virtfn0" then some true
    else none
  readlink := fun p =>
    if p = "/sys/bus/pci/devices/0000:03:00.0/driver" then
      some "../../../bus/pci/drivers/i40e"
    else none
  glob := fun p =>
    if p = "/sys/bus/pci/devices/0000:03:00.0/virtfn*" then
      some ["/sys/bus/pci/devices/0000:03:00.0/virtfn0"]
    else none
  evalSymlinks := fun p =>
    if p = "/sys/bus/pci/devices/0000:03:00.0/virtfn0" then
      some "/sys/bus/pci/devices/0000:03:02.0"
    else none

/-- The spec's emission contract for one PF, stated independently of the
loop plumbing: for a discovered PF with a reader, a VF map and a resolved
name, one counter-typed metric per (VF, statistic) pair, carrying the
sample's value and labelled `{pfName, vf, vfAddress}` in that order; a PF
without a reader or with failed VF enumeration contributes nothing. -/
def emitPF (fs : FS) (pf : String) : List Metric :=
  match statReaderForPF fs pf with
  | none => []
  | some reader =>
    match vfList fs pf with
    | Except.error _ => []
    | Except.ok vfs =>
      match getPFName fs pf with
      | none => []
      | some pfName =>
        vfs.flatMap (fun vfp =>
          (ReadStats fs reader pfName vfp.1).map (fun st =>
            { fqName := buildFQName metricNamespace sriovStatSubsystem st.1
              help := "Statistic " ++ st.1 ++ "."
              labelNames := ["pfName", "vf", "vfAddress"]
              valueType := ValueType.counterValue
              value := st.2
              labelValues := [pfName, vfp.1, vfp.2] }))

/-- The spec's emission contract over a list of discovered PFs. -/
def specEmission (fs : FS) (pfs : List String) : List Metric :=
  pfs.flatMap (emitPF fs)

/-- Snapshot for the discovery/panic interaction: one qualifying PF with the
i40e driver and a well-behaved (VF-less) device directory, whose `net`
subdirectory lists successfully as empty. -/
def fsC1 : FS := { emptyFS with
  readDir := fun p =>
    if p = sysBusPci then some ["0000:03:00.0"]
    else if p = "/sys/bus/pci/devices/0000:03:00.0/net" then some []
    else none
  readFile := fun p =>
    if p = "/sys/bus/pci/devices/0000:03:00.0/class" then some "0x020000\n" else none
  statOK := fun p => p == "/sys/bus/pci/devices/0000:03:00.0/sriov_totalvfs"
  readlink := fun p =>
    if p = "/sys/bus/pci/devices/0000:03:00.0/driver" then
      some "../../../bus/pci/drivers/i40e"
    else none
  lstat := fun p => if p = "/sys/bus/pci/devices/0000:03:00.0" then some false else none
  glob := fun p =>
    if p = "/sys/bus/pci/devices/0000:03:00.0/virtfn*" then some [] else none }

/-- Snapshot where the PF's `net` subdirectory lists successfully but is
empty. -/
def fsC2 : FS := { emptyFS with
  readDir := fun p =>
    if p = "/sys/bus/pci/devices/0000:03:00.0/net" then some [] else none }

/-- Snapshot with a parseable network-class file and present
`sriov_totalvfs` for `0000:af:00.1`, and an unparsable class file for
`0000:af:00.2`. -/
def fsC3 : FS := { emptyFS with
  readFile := fun p =>
    if p = "/sys/bus/pci/devices/0000:af:00.1/class" then some " 0x020000\r\n"
    else if p = "/sys/bus/pci/devices/0000:af:00.2/class" then some "garbage"
    else none
  statOK := fun p => p == "/sys/bus/pci/devices/0000:af:00.1/sriov_totalvfs" }

/-- Snapshot for VF enumeration: PF `0000:03:00.0` with true symlinks
`virtfn0` and `virtfn3` whose contents `../0000:03:02.0` / `../0000:03:02.3`
resolve (via `EvalSymlinks`) to the sibling device directories. -/
def fsC4 : FS := { emptyFS with
  lstat := fun p =>
    if p = "/sys/bus/pci/devices/0000:03:00.0" then some false
    else if p = "/sys/bus/pci/devices/0000:03:00.0/virtfn0" then some true
    else if p = "/sys/bus/pci/devices/0000:03:00.0/virtfn3" then some true
    else none
  glob := fun p =>
    if p = "/sys/bus/pci/devices/0000:03:00.0/virtfn*" then
      some ["/sys/bus/pci/devices/0000:03:00.0/virtfn0",
            "/sys/bus/pci/devices/0000:03:00.0/virtfn3"]
    else none
  evalSymlinks := fun p =>
    if p = "/sys/bus/pci/devices/0000:03:00.0/virtfn0" then
      some "/sys/bus/pci/devices/0000:03:02.0"
    else if p = "/sys/bus/pci/devices/0000:03:00.0/virtfn3" then
      some "/sys/bus/pci/devices/0000:03:02.3"
    else none }

/-- Snapshot with two qualifying i40e PFs: the device directory of
`0000:03:00.0` cannot be `Lstat`ed (VF enumeration fails), while
`0000:03:00.1` (interface `eno2`) is healthy with one VF and one
statistic. -/
def fsC5 : FS := { emptyFS with
  readDir := fun p =>
    if p = sysBusPci then some ["0000:03:00.0", "0000:03:00.1"]
    else if p = "/sys/bus/pci/devices/0000:03:00.1/net" then some ["eno2"]
    else if p = "/sys/class/net/eno2/device/sriov/0/stats/" then some ["tx_bytes"]
    else none
  readFile := fun p =>
    if p = "/sys/bus/pci/devices/0000:03:00.0/class" then some "0x020000\n"
    else if p = "/sys/bus/pci/devices/0000:03:00.1/class" then some "0x020000\n"
    else if p = "/sys/class/net/eno2/device/sriov/0/stats/tx_bytes" then some "42\n"
    else none
  statOK := fun p =>
    p == "/sys/bus/pci/devices/0000:03:00.0/sriov_totalvfs" ||
    p == "/sys/bus/pci/devices/0000:03:00.1/sriov_totalvfs"
  readlink := fun p =>
    if p = "/sys/bus/pci/devices/0000:03:00.0/driver" then
      some "../../../bus/pci/drivers/i40e"
    else if p = "/sys/bus/pci/devices/0000:03:00.1/driver" then
      some "../../../bus/pci/drivers/i40e"
    else none
  lstat := fun p =>
    if p = "/sys/bus/pci/devices/0000:03:00.1" then some false
    else if p = "/sys/bus/pci/devices/0000:03:00.1/virtfn0" then some true
    else none
  glob := fun p =>
    if p = "/sys/bus/pci/devices/0000:03:00.1/virtfn*" then
      some ["/sys/bus/pci/devices/0000:03:00.1/virtfn0"]
    else none
  evalSymlinks := fun p =>
    if p = "/sys/bus/pci/devices/0000:03:00.1/virtfn0" then
      some "/sys/bus/pci/devices/0000:03:02.0"
    else none }

/-- Snapshot for the silent-skip loop: `virtfn0` and `virtfn2` are true,
resolvable symlinks; `virtfn1` cannot be `Lstat`ed at all. -/
def fsC6 : FS := { emptyFS with
  lstat := fun p =>
    if p = "/sys/bus/pci/devices/0000:03:00.0/virtfn0" then some true
    else if p = "/sys/bus/pci/devices/0000:03:00.0/virtfn2" then some true
    else none
  evalSymlinks := fun p =>
    if p = "/sys/bus/pci/devices/0000:03:00.0/virtfn0" then
      some "/sys/bus/pci/devices/0000:03:02.0"
    else if p = "/sys/bus/pci/devices/0000:03:00.0/virtfn2" then
      some "/sys/bus/pci/devices/0000:03:02.2"
    else none }

/-- Snapshot for the stat reader: the stats directory of (`eno1`, VF `0`)
holds `corrupt = "notanumber"` and `rx_bytes = "1024\n"`. -/
def fsC7 : FS := { emptyFS with
  readDir := fun p =>
    if p = "/sys/class/net/eno1/device/sriov/0/stats/" then
      some ["corrupt", "rx_bytes"]
    else none
  readFile := fun p =>
    if p = "/sys/class/net/eno1/device/sriov/0/stats/corrupt" then some "notanumber"
    else if p = "/sys/class/net/eno1/device/sriov/0/stats/rx_bytes" then some "1024\n"
    else none }

/-- Snapshot whose only PF runs a non-i40e driver. -/
def fsC10 : FS := { emptyFS with
  readlink := fun p =>
    if p = "/sys/bus/pci/devices/0000:03:00.0/driver" then
      some "../../../bus/pci/drivers/mlx5_core"
    else none }

/-! ## Evaluation checks for the library models -/

example : goParseInt0 "0x020000" = some 131072 := by decide
example : goParseInt0 (goTrimSpace "0x020000\n") = some 131072 := by decide
example : goParseInt0 "131072" = some 131072 := by decide
example : goParseInt0 "garbage" = none := by decide
example : goParseInt0 "" = none := by decide
example : goParseInt0 "0x_2_0000" = some 131072 := by decide
example : goParseInt0 "1__2" = none := by decide
example : goParseInt0 "-0x20" = some (-32) := by decide
example : goParseInt0 "0" = some 0 := by decide
example : goParseInt0 "010" = some 8 := by decide
example : goParseInt0 "0x" = none := by decide
example : goParseInt0 "9223372036854775808" = none := by decide
example : goParseInt0 "-9223372036854775808" = some (-9223372036854775808) := by decide
example : goParseFloat "1024" = some (GoFloat.finite 1024) := by decide
example : goParseFloat (goTrimSpace "1024\n") = some (GoFloat.finite 1024) := by decide
example : goParseFloat "notanumber" = none := by decide
example : goParseFloat "1.5e3" = some (GoFloat.finite 1500) := by decide
example : goParseFloat "-2.5" = some (GoFloat.finite (Rat.divInt (-5) 2)) := by decide
example : goParseFloat "0x1.8p1" = some (GoFloat.finite 3) := by decide
example : goParseFloat "0x1p-2" = some (GoFloat.finite (Rat.divInt 1 4)) := by decide
example : goParseFloat "0x1" = none := by decide
example : goParseFloat "Inf" = some (GoFloat.inf false) := by decide
example : goParseFloat "-infinity" = some (GoFloat.inf true) := by decide
example : goParseFloat "nan" = some GoFloat.nan := by decide
example : goParseFloat "+nan" = none := by decide
example : goParseFloat "" = none := by decide
example : goParseFloat "." = none := by decide
example : goParseFloat "1." = some (GoFloat.finite 1) := by decide
example : goParseFloat ".5" = some (GoFloat.finite (Rat.divInt 1 2)) := by decide
example : goParseFloat "1_000" = some (GoFloat.finite 1000) := by decide
example : goParseFloat "1__0" = none := by decide
example : goParseFloat "1e" = none := by decide
example : goParseFloat "1e2x" = none := by decide
example : goParseFloat "1e309" = none := by decide
example : goParseFloat "12e307" = some (GoFloat.finite (Rat.divInt (12 * 10 ^ 307) 1)) := by decide
example : goParseFloat "18e307" = none := by decide
example : goParseFloat "1e308" = some (GoFloat.finite (Rat.divInt (10 ^ 308) 1)) := by decide
example : goJoin [sysBusPci, "0000:03:00.0", netClassFile] =
    "/sys/bus/pci/devices/0000:03:00.0/class" := by decide
example : goJoin [sysBusPci, "0000:03:00.0", totalVfFile] =
    "/sys/bus/pci/devices/0000:03:00.0/sriov_totalvfs" := by decide
example : goJoin ["/sys/class/net/eno1/device/sriov/0/stats/", "tx_bytes"] =
    "/sys/class/net/eno1/device/sriov/0/stats/tx_bytes" := by decide
example : goBase "../../../../bus/pci/drivers/i40e" = "i40e" := by decide
example : goBase "" = "." := by decide
example : goBase "/" = "/" := by decide
example : goClean "a//b/./../c" = "a/c" := by decide

/-! ## Helper lemmas -/

theorem isNetDevice_iff (fs : FS) (fp : String) :
    isNetDevice fs fp = true ↔
      ∃ content, fs.readFile fp = some content ∧
        goParseInt0 (goTrimSpace content) = some netClass := by
  unfold isNetDevice
  cases hrf : fs.readFile fp with
  | none => simp
  | some content =>
    cases hp : goParseInt0 (goTrimSpace content) with
    | none => simp [hp]
    | some v => simp [hp]

theorem isSriovNetPF_eq_and (fs : FS) (pciAddr : String) :
    isSriovNetPF fs pciAddr =
      (isNetDevice fs (goJoin [sysBusPci, pciAddr, netClassFile]) &&
        fs.statOK (goJoin [sysBusPci, pciAddr, totalVfFile])) := by
  unfold isSriovNetPF
  cases h1 : isNetDevice fs (goJoin [sysBusPci, pciAddr, netClassFile]) <;>
    cases h2 : fs.statOK (goJoin [sysBusPci, pciAddr, totalVfFile]) <;> rfl

theorem updateLoop_ne_error (fs : FS) :
    ∀ (pfs : List String) (acc : List Metric) (e : String),
      updateLoop fs pfs acc ≠ UpdateResult.error e := by
  intro pfs
  induction pfs with
  | nil => intro acc e h; simp [updateLoop] at h
  | cons pf rest ih =>
    intro acc e h
    unfold updateLoop at h
    cases hr : statReaderForPF fs pf with
    | none => rw [hr] at h; exact ih acc e h
    | some reader =>
      rw [hr] at h
      cases hv : vfList fs pf with
      | error msg => rw [hv] at h; exact ih acc e h
      | ok vfs =>
        rw [hv] at h
        cases hn : getPFName fs pf with
        | none => rw [hn] at h; exact UpdateResult.noConfusion h
        | some pfName => rw [hn] at h; exact ih _ e h

theorem mapInsert_fresh {α : Type} (l : List (String × α)) (k : String) (v : α)
    (h : ∀ p ∈ l, p.1 ≠ k) : mapInsert l k v = l ++ [(k, v)] := by
  unfold mapInsert
  rw [if_neg]
  intro hc
  rw [List.any_eq_true] at hc
  rcases hc with ⟨p, hp, he⟩
  exact h p hp (by simpa using he)

theorem statStep_of_statParse_none (fs : FS) (root : String)
    (acc : List (String × GoFloat)) (f : String) (h : statParse fs root f = none) :
    statStep fs root acc f = acc := by
  cases hrf : fs.readFile (goJoin [root, f]) with
  | none => simp only [statStep, hrf]
  | some raw =>
    simp only [statParse, hrf] at h
    cases hpf : goParseFloat (goTrimSpace raw) with
    | none => simp only [statStep, hrf, hpf]
    | some v => rw [hpf] at h; simp at h

theorem statStep_of_statParse_some (fs : FS) (root : String)
    (acc : List (String × GoFloat)) (f : String) (p : String × GoFloat)
    (h : statParse fs root f = some p) (hfresh : ∀ q ∈ acc, q.1 ≠ f) :
    p.1 = f ∧ statStep fs root acc f = acc ++ [p] := by
  cases hrf : fs.readFile (goJoin [root, f]) with
  | none =>
    simp only [statParse, hrf] at h
    exact Option.noConfusion h
  | some raw =>
    simp only [statParse, hrf] at h
    cases hpf : goParseFloat (goTrimSpace raw) with
    | none => rw [hpf] at h; simp at h
    | some v =>
      rw [hpf] at h
      simp only [Option.map_some'] at h
      injection h with h2
      subst h2
      refine ⟨rfl, ?_⟩
      simp only [statStep, hrf, hpf]
      exact mapInsert_fresh acc f v hfresh

theorem statFold_filterMap (fs : FS) (root : String) :
    ∀ (files : List String) (acc : List (String × GoFloat)),
      files.Nodup → (∀ p ∈ acc, p.1 ∉ files) →
      files.foldl (statStep fs root) acc = acc ++ files.filterMap (statParse fs root) := by
  intro files
  induction files with
  | nil => intro acc _ _; simp
  | cons f rest ih =>
    intro acc hnd hdisj
    have hfr : f ∉ rest := (List.nodup_cons.mp hnd).1
    have hndr : rest.Nodup := (List.nodup_cons.mp hnd).2
    have hdisj' : ∀ p ∈ acc, p.1 ∉ rest :=
      fun p hp hm => hdisj p hp (List.mem_cons_of_mem f hm)
    rw [List.foldl_cons, List.filterMap_cons]
    cases hsp : statParse fs root f with
    | none =>
      rw [statStep_of_statParse_none fs root acc f hsp]
      exact ih acc hndr hdisj'
    | some p =>
      have hfresh : ∀ q ∈ acc, q.1 ≠ f :=
        fun q hq he => hdisj q hq (he ▸ List.mem_cons_self f rest)
      obtain ⟨hp1, hstep⟩ := statStep_of_statParse_some fs root acc f p hsp hfresh
      rw [hstep, ih (acc ++ [p]) hndr ?side, List.append_assoc]
      · rfl
      case side =>
        intro q hq
        rcases List.mem_append.mp hq with h1 | h2
        · exact hdisj' q h1
        · have : q = p := by simpa using h2
          rw [this, hp1]
          exact hfr

theorem updateLoop_ok_spec (fs : FS) :
    ∀ (pfs : List String) (acc ms : List Metric),
      updateLoop fs pfs acc = UpdateResult.ok ms → ms = acc ++ specEmission fs pfs := by
  intro pfs
  induction pfs with
  | nil =>
    intro acc ms h
    simp only [updateLoop] at h
    cases h
    simp [specEmission]
  | cons pf rest ih =>
    intro acc ms h
    unfold updateLoop at h
    unfold specEmission
    rw [List.flatMap_cons]
    cases hr : statReaderForPF fs pf with
    | none =>
      rw [hr] at h
      have he : emitPF fs pf = [] := by unfold emitPF; rw [hr]
      rw [ih acc ms h, he, List.nil_append]
      rfl
    | some reader =>
      rw [hr] at h
      cases hv : vfList fs pf with
      | error msg =>
        rw [hv] at h
        have he : emitPF fs pf = [] := by unfold emitPF; rw [hr, hv]
        rw [ih acc ms h, he, List.nil_append]
        rfl
      | ok vfs =>
        rw [hv] at h
        cases hn : getPFName fs pf with
        | none => rw [hn] at h; exact UpdateResult.noConfusion h
        | some pfName =>
          rw [hn] at h
          have he : emitPF fs pf = pfMetrics fs reader pfName vfs := by
            unfold emitPF pfMetrics metricFor
            rw [hr, hv, hn]
          rw [ih (acc ++ pfMetrics fs reader pfName vfs) ms h, he, List.append_assoc]
          rfl

/-! ## The claims -/

/-- C2 (code bug): when the PF's `net` directory cannot be listed,
`getPFName` returns `""`; but when the listing succeeds and is *empty*, the
code indexes `pfdir[0]` and panics (modelled as `none`) instead of
returning the empty string as the claim states. -/
theorem getPFName_empty_dir_crashes :
    getPFName emptyFS "0000:03:00.0" = some "" ∧
    getPFName fsC2 "0000:03:00.0" = none := by decide

/-- C3: `isSriovNetPF` accepts exactly the devices whose class file reads
and parses (base-prefixed) to the network-controller code `0x020000` and
whose `sriov_totalvfs` file stats; an unparsable class file always yields
`false`, never an error. -/
theorem isSriovNetPF_characterization (fs : FS) (pciAddr : String) :
    (isSriovNetPF fs pciAddr = true ↔
      ((∃ content,
          fs.readFile (goJoin [sysBusPci, pciAddr, netClassFile]) = some content ∧
          goParseInt0 (goTrimSpace content) = some netClass) ∧
        fs.statOK (goJoin [sysBusPci, pciAddr, totalVfFile]) = true)) ∧
    (∀ content, fs.readFile (goJoin [sysBusPci, pciAddr, netClassFile]) = some content →
      goParseInt0 (goTrimSpace content) = none → isSriovNetPF fs pciAddr = false) := by
  constructor
  · rw [isSriovNetPF_eq_and, Bool.and_eq_true, isNetDevice_iff]
  · intro content hrf hp
    rw [isSriovNetPF_eq_and]
    have hnd : isNetDevice fs (goJoin [sysBusPci, pciAddr, netClassFile]) = false := by
      cases hd : isNetDevice fs (goJoin [sysBusPci, pciAddr, netClassFile]) with
      | false => rfl
      | true =>
        rcases (isNetDevice_iff fs _).mp hd with ⟨c, hc, hpc⟩
        rw [hrf] at hc
        cases hc
        rw [hp] at hpc
        exact Option.noConfusion hpc
    rw [hnd, Bool.false_and]

theorem isSriovNetPF_characterization_witness :
    isSriovNetPF fsC3 "0000:af:00.1" = true ∧ isSriovNetPF fsC3 "0000:af:00.2" = false :=
  ⟨(isSriovNetPF_characterization fsC3 "0000:af:00.1").1.mpr
      ⟨⟨" 0x020000\r\n", by decide, by decide⟩, by decide⟩,
    (isSriovNetPF_characterization fsC3 "0000:af:00.2").2 "garbage" (by decide) (by decide)⟩

/-- C4: on a PF whose device directory holds true symlinks `virtfn0` and
`virtfn3` resolving to `0000:03:02.0` and `0000:03:02.3`, `vfList` returns
exactly the map from the numeric suffix to the base name of the resolved
target. -/
theorem vfList_two_virtfns :
    vfList fsC4 "0000:03:00.0" =
      Except.ok [("0", "0000:03:02.0"), ("3", "0000:03:02.3")] := by rfl

/-- C1 (code bug): an error return of `Update` is exactly a PF-discovery
error (the per-PF loop itself never produces an error result, and a
discovery error emits nothing) — but "in every other case Update returns
success" fails: on `fsC1`, discovery succeeds with one healthy i40e PF whose
`net` directory is empty, and the pass crashes in `getPFName` instead of
returning success. -/
theorem update_error_iff_discovery (fs : FS) (e : String) :
    (Update fs = UpdateResult.error e ↔ getSriovPFs fs = Except.error e) ∧
    ((∃ e2, getSriovPFs fs = Except.error e2) ↔
      (getPCIDevs fs = [] ∨ (getPCIDevs fs).filter (isSriovNetPF fs) = [])) ∧
    Update fsC1 = UpdateResult.crash := by
  refine ⟨?_, ?_, by rfl⟩
  · unfold Update
    cases hd : getSriovPFs fs with
    | error msg => simp
    | ok pfs =>
      constructor
      · intro h; exact absurd h (updateLoop_ne_error fs pfs [] e)
      · intro h; exact Except.noConfusion h
  · simp only [getSriovPFs]
    by_cases h0 : (getPCIDevs fs).length = 0
    · rw [if_pos h0]
      exact ⟨fun _ => Or.inl (List.length_eq_zero.mp h0), fun _ => ⟨_, rfl⟩⟩
    · rw [if_neg h0]
      by_cases h1 : ((getPCIDevs fs).filter (isSriovNetPF fs)).length = 0
      · rw [if_pos h1]
        exact ⟨fun _ => Or.inr (List.length_eq_zero.mp h1), fun _ => ⟨_, rfl⟩⟩
      · rw [if_neg h1]
        constructor
        · rintro ⟨e2, he⟩
          exact Except.noConfusion he
        · rintro (h | h)
          · exact absurd (by rw [h]; rfl) h0
          · exact absurd (by rw [h]; rfl) h1

/-- C5: `vfList` fails exactly when the PF directory cannot be `Lstat`ed or
the `virtfn*` glob errors; a PF whose `vfList` fails is skipped by the
`Update` loop, which continues unchanged with the remaining PFs; and on a
snapshot where the first of two PFs fails enumeration this way, `Update`
still collects the second PF's metrics and succeeds. -/
theorem vfList_error_isolation :
    (∀ (fs : FS) (pf : String),
      (∃ e, vfList fs pf = Except.error e) ↔
        (fs.lstat (goJoin [sysBusPci, pf]) = none ∨
          fs.glob (goJoin [goJoin [sysBusPci, pf], "virtfn*"]) = none)) ∧
    (∀ (fs : FS) (pf : String) (rest : List String) (acc : List Metric) (e : String),
      vfList fs pf = Except.error e →
      updateLoop fs (pf :: rest) acc = updateLoop fs rest acc) ∧
    Update fsC5 =
      UpdateResult.ok [metricFor "eno2" "0" "0000:03:02.0" "tx_bytes" (GoFloat.finite 42)] := by
  refine ⟨?_, ?_, by rfl⟩
  · intro fs pf
    unfold vfList
    cases hl : fs.lstat (goJoin [sysBusPci, pf]) with
    | none => simp [hl]
    | some b =>
      cases hg : fs.glob (goJoin [goJoin [sysBusPci, pf], "virtfn*"]) with
      | none => simp [hl, hg]
      | some l => simp [hl, hg]
  · intro fs pf rest acc e hv
    cases hr : statReaderForPF fs pf with
    | none => simp only [updateLoop, hr]
    | some r => simp only [updateLoop, hr, hv]

theorem vfList_error_isolation_witness :
    updateLoop fsC5 ["0000:03:00.0", "0000:03:00.1"] [] =
      updateLoop fsC5 ["0000:03:00.1"] [] :=
  vfList_error_isolation.2.1 fsC5 "0000:03:00.0" ["0000:03:00.1"] []
    "could not get PF directory information for device: 0000:03:00.0" (by rfl)

/-- C6: a `virtfn*` entry that is not a true symlink, fails `Lstat`, or
fails symlink resolution is silently dropped from the enumeration loop: the
fold over the glob list with that entry equals the fold without it, while
every other entry is still processed. -/
theorem vfAccum_skips_bad_entries (fs : FS) (d : String) (pre post : List String)
    (acc : List (String × String))
    (h : fs.lstat d = none ∨ fs.lstat d = some false ∨
      (fs.lstat d = some true ∧ fs.evalSymlinks d = none)) :
    vfAccum fs (pre ++ d :: post) acc = vfAccum fs (pre ++ post) acc := by
  unfold vfAccum
  rw [List.foldl_append, List.foldl_append, List.foldl_cons]
  rcases h with h | h | ⟨h1, h2⟩
  · rw [h]
  · rw [h]
  · rw [h1, h2]

theorem vfAccum_skips_bad_entries_witness :
    vfAccum fsC6
        ["/sys/bus/pci/devices/0000:03:00.0/virtfn0",
          "/sys/bus/pci/devices/0000:03:00.0/virtfn1",
          "/sys/bus/pci/devices/0000:03:00.0/virtfn2"] [] =
      vfAccum fsC6
        ["/sys/bus/pci/devices/0000:03:00.0/virtfn0",
          "/sys/bus/pci/devices/0000:03:00.0/virtfn2"] [] ∧
    vfAccum fsC6
        ["/sys/bus/pci/devices/0000:03:00.0/virtfn0",
          "/sys/bus/pci/devices/0000:03:00.0/virtfn2"] [] =
      [("0", "0000:03:02.0"), ("2", "0000:03:02.2")] :=
  ⟨vfAccum_skips_bad_entries fsC6 "/sys/bus/pci/devices/0000:03:00.0/virtfn1"
      ["/sys/bus/pci/devices/0000:03:00.0/virtfn0"]
      ["/sys/bus/pci/devices/0000:03:00.0/virtfn2"] [] (Or.inl (by rfl)),
    by rfl⟩

/-- C9: collection is stateless and deterministic — the collector value
comes back unchanged from a pass, a second pass from the returned state
yields the identical result, and the result does not depend on the logger
handle (the only field) at all. -/
theorem update_stateless {L : Type} (c : sriovNetCollector L) (fs : FS) :
    (updateC c fs).2 = c ∧
    (updateC ((updateC c fs).2) fs).1 = (updateC c fs).1 ∧
    ∀ c' : sriovNetCollector L, (updateC c' fs).1 = (updateC c fs).1 :=
  ⟨rfl, rfl, fun _ => rfl⟩

/-- C10: a PF whose driver symlink does not resolve (or resolves to a
non-`i40e` base name) gets no stat reader, and the `Update` loop treats it
as if it were absent: no VF enumeration, no metrics, no error. -/
theorem non_i40e_pf_skipped (fs : FS) (pf : String) (rest : List String) (acc : List Metric)
    (h : fs.readlink (goJoin [sysBusPci, pf, driverFile]) = none ∨
      ∃ s, fs.readlink (goJoin [sysBusPci, pf, driverFile]) = some s ∧ goBase s ≠ "i40e") :
    statReaderForPF fs pf = none ∧
    updateLoop fs (pf :: rest) acc = updateLoop fs rest acc := by
  have hr : statReaderForPF fs pf = none := by
    unfold statReaderForPF
    rcases h with h | ⟨s, hs, hb⟩
    · rw [h]; rfl
    · rw [hs]
      simp only [Option.getD_some]
      rw [if_neg hb]
  exact ⟨hr, by simp only [updateLoop, hr]⟩

theorem non_i40e_pf_skipped_witness :
    statReaderForPF fsC10 "0000:03:00.0" = none ∧
    updateLoop fsC10 ["0000:03:00.0"] [] = updateLoop fsC10 [] [] :=
  non_i40e_pf_skipped fsC10 "0000:03:00.0" [] []
    (Or.inr ⟨"../../../bus/pci/drivers/mlx5_core", by rfl, by decide⟩)

/-- C7: `ReadStats` returns exactly the files of the stats directory whose
trimmed content parses as a float, each mapped to its parsed value
(`statParse`); an unlistable directory yields the empty sample with no
error; and on a directory with `rx_bytes = "1024\n"` and
`corrupt = "notanumber"` the sample is exactly `{rx_bytes ↦ 1024}`. -/
theorem readStats_exactly_parsable :
    (∀ (fs : FS) (pfName vfID : String),
      fs.readDir (statRoot pfName vfID) = none → i40eReadStats fs pfName vfID = []) ∧
    (∀ (fs : FS) (pfName vfID : String) (files : List String),
      fs.readDir (statRoot pfName vfID) = some files → files.Nodup →
      i40eReadStats fs pfName vfID =
        files.filterMap (statParse fs (statRoot pfName vfID))) ∧
    i40eReadStats fsC7 "eno1" "0" = [("rx_bytes", GoFloat.finite 1024)] := by
  refine ⟨?_, ?_, by rfl⟩
  · intro fs pfName vfID h
    simp only [i40eReadStats, h]
  · intro fs pfName vfID files h hnd
    simp only [i40eReadStats, h]
    simpa using statFold_filterMap fs (statRoot pfName vfID) files [] hnd (by simp)

theorem readStats_exactly_parsable_witness :
    i40eReadStats fsC7 "eno1" "0" =
      ["corrupt", "rx_bytes"].filterMap (statParse fsC7 (statRoot "eno1" "0")) ∧
    i40eReadStats emptyFS "eno1" "0" = [] :=
  ⟨readStats_exactly_parsable.2.1 fsC7 "eno1" "0" ["corrupt", "rx_bytes"] (by rfl) (by decide),
    readStats_exactly_parsable.1 emptyFS "eno1" "0" (by rfl)⟩

/-- C8: whenever a pass completes successfully on the discovered PFs, the
emitted metrics are exactly one counter-typed observation per
(PF, VF, statistic) triple, carrying the sample's value and labelled with
the PF's resolved interface name, the VF index string and the VF's PCI
address, in the order `{pfName, vf, vfAddress}` (the content of
`specEmission`). -/
theorem update_emits_per_triple (fs : FS) (pfs : List String) (ms : List Metric)
    (h1 : getSriovPFs fs = Except.ok pfs) (h2 : Update fs = UpdateResult.ok ms) :
    ms = specEmission fs pfs := by
  unfold Update at h2
  rw [h1] at h2
  simpa using updateLoop_ok_spec fs pfs [] ms h2

theorem update_emits_per_triple_witness :
    Update fsC8 = UpdateResult.ok (specEmission fsC8 ["0000:03:00.0"]) := by
  have h := update_emits_per_triple fsC8 ["0000:03:00.0"]
    [metricFor "eno1" "0" "0000:03:02.0" "tx_bytes" (GoFloat.finite 42)] (by rfl) (by rfl)
  rw [← h]
  rfl

end SriovNet
